import Mathlib

/-!
Shallow embedding of `src/14 - Resolução de desafios/desafio-classes-python.py`,
a single-process in-memory banking exercise.

Modelling conventions:
* Python `float` amounts are modelled as `ℚ`; the program only adds, subtracts
  and compares amounts, and every claim is about those exact operations.
* Python methods mutate `self` and return a `bool`; here each operation returns
  the new state together with an `OpResult`.  The Python return value is `True`
  exactly when the result is `OpResult.sucesso`; each failure constructor names
  the distinct console message the source prints on that branch.
* `datetime.now()` is nondeterministic, so the timestamp written into a history
  record is passed in as an explicit `String` argument (`data`).
* Python object references alias: the same `Conta` object is stored both in the
  session-wide `contas` list and in its owner's `cliente.contas` list, and
  mutations through one reference are visible through the other.  The session
  model therefore keys accounts by their account number: `PessoaFisica.contas`
  holds account numbers, and the account state itself lives (once) in
  `Session.contas`.
-/

namespace Banco

/-- The two concrete `Transacao` subclasses of the source
(`transacao.__class__.__name__`, used as the `"tipo"` tag of a history entry). -/
inductive TipoTransacao where
  | saque
  | deposito
deriving DecidableEq, Repr

/-- One entry of `Historico._transacoes`: the dict
`{"tipo": ..., "valor": ..., "data": ...}` built by `adicionar_transacao`. -/
structure TransacaoRec where
  tipo : TipoTransacao
  valor : ℚ
  data : String
deriving DecidableEq, Repr

/-- A `Transacao`: the abstract base class has exactly the two concrete
subclasses `Saque` and `Deposito`, each carrying only `valor`. -/
inductive Transacao where
  | saque (valor : ℚ)
  | deposito (valor : ℚ)
deriving DecidableEq, Repr

/-- `transacao.valor` (the `valor` property of both subclasses). -/
def Transacao.valor : Transacao → ℚ
  | .saque v => v
  | .deposito v => v

/-- `transacao.__class__.__name__`, as recorded by
`Historico.adicionar_transacao`. -/
def Transacao.tipo : Transacao → TipoTransacao
  | .saque _ => .saque
  | .deposito _ => .deposito

/-- `Historico`: the `_transacoes` list of an account. -/
structure Historico where
  transacoes : List TransacaoRec
deriving DecidableEq, Repr

/-- `Historico.adicionar_transacao`: appends the dict
`{"tipo": class name, "valor": transacao.valor, "data": now}`. -/
def Historico.adicionar_transacao (h : Historico) (t : Transacao) (now : String) :
    Historico :=
  ⟨h.transacoes ++ [⟨t.tipo, t.valor, now⟩]⟩

/-- Result of `sacar`/`depositar`.  The Python methods return a `bool`
(`True` iff `sucesso`); each failure constructor corresponds to the distinct
message printed on that branch of the source. -/
inductive OpResult where
  | sucesso
  /-- "Operação falhou! O valor informado é inválido." -/
  | valorInvalido
  /-- "Operação falhou! Você não tem saldo suficiente." -/
  | saldoInsuficiente
  /-- "Operação falhou! O valor do saque excede o limite." -/
  | excedeLimite
  /-- "Operação falhou! Número máximo de saques excedido." -/
  | maxSaques
deriving DecidableEq, Repr

/-- The `bool` actually returned by the Python method. -/
def OpResult.toBool : OpResult → Bool
  | .sucesso => true
  | _ => false

/-- `Conta`: a generic bank account.  `_cliente` is an object reference in the
source; it is modelled by the owner's CPF string (the only identity the program
ever uses to reach a customer). -/
structure Conta where
  saldo : ℚ
  numero : Nat
  agencia : String
  cliente : String
  historico : Historico
deriving DecidableEq, Repr

/-- `Conta.__init__(numero, cliente)`: balance `0.0`, agency `"0001"`, fresh
empty history. -/
def Conta.init (numero : Nat) (cliente : String) : Conta :=
  { saldo := 0
    numero := numero
    agencia := "0001"
    cliente := cliente
    historico := ⟨[]⟩ }

/-- `Conta.nova_conta(cliente, numero)`: classmethod returning
`cls(numero, cliente)`. -/
def Conta.nova_conta (cliente : String) (numero : Nat) : Conta :=
  Conta.init numero cliente

/-- `Conta.sacar(valor)`. -/
def Conta.sacar (c : Conta) (valor : ℚ) : OpResult × Conta :=
  if valor ≤ 0 then
    (.valorInvalido, c)
  else if valor > c.saldo then
    (.saldoInsuficiente, c)
  else
    (.sucesso, { c with saldo := c.saldo - valor })

/-- `Conta.depositar(valor)`. -/
def Conta.depositar (c : Conta) (valor : ℚ) : OpResult × Conta :=
  if valor ≤ 0 then
    (.valorInvalido, c)
  else
    (.sucesso, { c with saldo := c.saldo + valor })

/-- `ContaCorrente`: checking account with a per-withdrawal `_limite` and a
maximum number of withdrawals `_limite_saques`. -/
structure ContaCorrente extends Conta where
  limite : ℚ
  limite_saques : Nat
deriving DecidableEq, Repr

/-- `ContaCorrente.__init__(numero, cliente, limite=500.0, limite_saques=3)`. -/
def ContaCorrente.init (numero : Nat) (cliente : String)
    (limite : ℚ := 500) (limite_saques : Nat := 3) : ContaCorrente :=
  { toConta := Conta.init numero cliente
    limite := limite
    limite_saques := limite_saques }

/-- `ContaCorrente.nova_conta(cliente, numero)`: the inherited classmethod with
`cls = ContaCorrente`, so the defaults `limite=500.0`, `limite_saques=3` apply. -/
def ContaCorrente.nova_conta (cliente : String) (numero : Nat) : ContaCorrente :=
  ContaCorrente.init numero cliente

/-- `saques_realizados` as computed inside `ContaCorrente.sacar`:
`sum(1 for transacao in self.historico.transacoes if transacao["tipo"] == Saque.__name__)`. -/
def saquesRealizados (cc : ContaCorrente) : Nat :=
  cc.historico.transacoes.countP (fun t => t.tipo = TipoTransacao.saque)

/-- `ContaCorrente.sacar(valor)`: limit check, then withdrawal-count check,
then delegation to `Conta.sacar`. -/
def ContaCorrente.sacar (cc : ContaCorrente) (valor : ℚ) : OpResult × ContaCorrente :=
  let saques_realizados := saquesRealizados cc
  if valor > cc.limite then
    (.excedeLimite, cc)
  else if saques_realizados ≥ cc.limite_saques then
    (.maxSaques, cc)
  else
    let r := cc.toConta.sacar valor
    (r.1, { cc with toConta := r.2 })

/-- `ContaCorrente` does not override `depositar`; a call on a checking account
dispatches to the inherited `Conta.depositar`, mutating the base state. -/
def ContaCorrente.depositar (cc : ContaCorrente) (valor : ℚ) : OpResult × ContaCorrente :=
  let r := cc.toConta.depositar valor
  (r.1, { cc with toConta := r.2 })

/-- The account method `registrar` invokes: `Saque.registrar` calls
`conta.sacar(self.valor)`, `Deposito.registrar` calls
`conta.depositar(self.valor)` (here at static type `Conta`). -/
def Transacao.aplicar (t : Transacao) (c : Conta) : OpResult × Conta :=
  match t with
  | .saque v => c.sacar v
  | .deposito v => c.depositar v

/-- `registrar(conta)` for a plain `Conta`: perform the operation and, only on
success, append the transaction to the account's history. -/
def Transacao.registrar (t : Transacao) (c : Conta) (now : String) : Conta :=
  let r := t.aplicar c
  if r.1 = .sucesso then
    { r.2 with historico := r.2.historico.adicionar_transacao t now }
  else
    r.2

/-- The same dynamic dispatch at a `ContaCorrente` receiver: `conta.sacar`
resolves to the override `ContaCorrente.sacar`, `conta.depositar` to the
inherited `Conta.depositar`. -/
def Transacao.aplicarCC (t : Transacao) (cc : ContaCorrente) : OpResult × ContaCorrente :=
  match t with
  | .saque v => cc.sacar v
  | .deposito v => cc.depositar v

/-- `registrar(conta)` when `conta` is a `ContaCorrente` (the only account kind
the program creates). -/
def Transacao.registrarCC (t : Transacao) (cc : ContaCorrente) (now : String) :
    ContaCorrente :=
  let r := t.aplicarCC cc
  if r.1 = .sucesso then
    { r.2 with
      toConta := { r.2.toConta with
        historico := r.2.historico.adicionar_transacao t now } }
  else
    r.2

/-- `PessoaFisica`: the only concrete `Cliente` of the program.  `contas` is the
owned-accounts list; in the source it holds object references shared with the
session-wide `contas` list, modelled here by the accounts' numbers (see the
module comment). -/
structure PessoaFisica where
  nome : String
  data_nascimento : String
  cpf : String
  endereco : String
  contas : List Nat
deriving DecidableEq, Repr

/-- `filtrar_cliente(cpf, clientes)`:
`next((cliente for cliente in clientes if cliente.cpf == cpf), None)`. -/
def filtrar_cliente (cpf : String) (clientes : List PessoaFisica) :
    Option PessoaFisica :=
  clientes.find? (fun cliente => cliente.cpf = cpf)

/-- `criar_cliente(clientes)` with the prompted inputs made explicit: if a
customer with this CPF exists the function returns early; otherwise a fresh
`PessoaFisica` (empty `contas`) is appended. -/
def criar_cliente (cpf nome data_nascimento endereco : String)
    (clientes : List PessoaFisica) : List PessoaFisica :=
  match filtrar_cliente cpf clientes with
  | some _ => clientes
  | none => clientes ++ [⟨nome, data_nascimento, cpf, endereco, []⟩]

/-- `recuperar_conta_cliente(cliente)`: `None` when the customer owns no
account, otherwise `cliente.contas[0]` (here: its account number). -/
def recuperar_conta_cliente (cliente : PessoaFisica) : Option Nat :=
  cliente.contas.head?

/-- In-place mutation of the one object a Python reference points at, modelled
on a keyed list: rewrite the first element satisfying `p` with `f`. -/
def atualizarPrimeiro (p : α → Bool) (f : α → α) : List α → List α
  | [] => []
  | x :: xs => if p x then f x :: xs else x :: atualizarPrimeiro p f xs

/-- The two top-level lists of `main()`.  Every account the program creates is
a `ContaCorrente` (see `criar_conta`). -/
structure Session where
  clientes : List PessoaFisica
  contas : List ContaCorrente
deriving DecidableEq, Repr

/-- The shared flow of the `d` and `s` menu options after a valid amount was
parsed: resolve the customer by CPF, take their first account, and
`cliente.realizar_transacao(conta, transacao)`, i.e. `transacao.registrar`
on that account.  The mutation of the shared account object is modelled by
rewriting the account with that number in the session list. -/
def realizar_transacao_op (t : Transacao) (cpf : String) (now : String)
    (s : Session) : Session :=
  match filtrar_cliente cpf s.clientes with
  | none => s
  | some cliente =>
    match recuperar_conta_cliente cliente with
    | none => s
    | some numero =>
      { s with
        contas := atualizarPrimeiro (fun cc => cc.numero = numero)
          (fun cc => t.registrarCC cc now) s.contas }

/-- Menu option `d`: `depositar(clientes)` with CPF and amount made explicit. -/
def depositar_op (cpf : String) (valor : ℚ) (now : String) (s : Session) :
    Session :=
  realizar_transacao_op (Transacao.deposito valor) cpf now s

/-- Menu option `s`: `sacar(clientes)` with CPF and amount made explicit. -/
def sacar_op (cpf : String) (valor : ℚ) (now : String) (s : Session) :
    Session :=
  realizar_transacao_op (Transacao.saque valor) cpf now s

/-- Menu option `nu`: `criar_cliente` on the session's customer list. -/
def criar_cliente_op (cpf nome data_nascimento endereco : String)
    (s : Session) : Session :=
  { s with clientes := criar_cliente cpf nome data_nascimento endereco s.clientes }

/-- `criar_conta(numero_conta, clientes, contas)`: abort if the CPF is
unknown; otherwise create `ContaCorrente.nova_conta(cliente, numero_conta)`,
append it to `contas` and to the customer's own list. -/
def criar_conta (numero_conta : Nat) (cpf : String) (s : Session) : Session :=
  match filtrar_cliente cpf s.clientes with
  | none => s
  | some _ =>
    let conta := ContaCorrente.nova_conta cpf numero_conta
    { clientes := atualizarPrimeiro (fun cliente => cliente.cpf = cpf)
        (fun cliente => { cliente with contas := cliente.contas ++ [numero_conta] })
        s.clientes
      contas := s.contas ++ [conta] }

/-- Menu option `nc` as dispatched by `main()`:
`numero_conta = len(contas) + 1` then `criar_conta`. -/
def criar_conta_op (cpf : String) (s : Session) : Session :=
  criar_conta (s.contas.length + 1) cpf s

/-- The session states reachable from the start of `main()` (both lists empty)
by menu commands.  Options `e`, `lc`, `q` and invalid inputs do not change the
state; failed amount parsing in `d`/`s` leaves the state unchanged as well. -/
inductive Reach : Session → Prop where
  | init : Reach ⟨[], []⟩
  | depositar (cpf : String) (valor : ℚ) (now : String) {s : Session} :
      Reach s → Reach (depositar_op cpf valor now s)
  | sacar (cpf : String) (valor : ℚ) (now : String) {s : Session} :
      Reach s → Reach (sacar_op cpf valor now s)
  | novo_cliente (cpf nome data_nascimento endereco : String) {s : Session} :
      Reach s → Reach (criar_cliente_op cpf nome data_nascimento endereco s)
  | nova_conta (cpf : String) {s : Session} :
      Reach s → Reach (criar_conta_op cpf s)

/-- Iterated deposits through `registrar`, used to state that no sequence of
deposits consumes the withdrawal quota. -/
def aplicarDepositos (cc : ContaCorrente) : List (ℚ × String) → ContaCorrente
  | [] => cc
  | (v, now) :: resto =>
    aplicarDepositos ((Transacao.deposito v).registrarCC cc now) resto

/-! Concrete fixtures used by witnesses and counterexamples. -/

/-- A generic account with a 10.0 balance and empty history. -/
def contaTeste : Conta :=
  { saldo := 10, numero := 1, agencia := "0001", cliente := "111", historico := ⟨[]⟩ }

/-- A fresh checking account (default limits) with a 1000.0 balance. -/
def ccTeste : ContaCorrente :=
  { toConta := { saldo := 1000, numero := 1, agencia := "0001", cliente := "111",
                 historico := ⟨[]⟩ }
    limite := 500
    limite_saques := 3 }

/-- A checking account with default limits, balance 400.0 and three recorded
withdrawals (the state after the §8 scenario: deposit 1000, withdraw 200 three
times). -/
def ccTresSaques : ContaCorrente :=
  { toConta := { saldo := 400, numero := 1, agencia := "0001", cliente := "111",
                 historico := ⟨[⟨.deposito, 1000, "t0"⟩, ⟨.saque, 200, "t1"⟩,
                               ⟨.saque, 200, "t2"⟩, ⟨.saque, 200, "t3"⟩]⟩ }
    limite := 500
    limite_saques := 3 }

/-- A registered customer fixture. -/
def clienteTeste : PessoaFisica :=
  ⟨"Fulano de Tal", "01-01-2000", "111", "Rua A, 1 - Centro - Cidade/UF", []⟩

/-- A session reached by registering one customer and opening two accounts. -/
def sessaoTeste : Session :=
  criar_conta_op "111"
    (criar_conta_op "111"
      (criar_cliente_op "111" "Fulano de Tal" "01-01-2000"
        "Rua A, 1 - Centro - Cidade/UF" ⟨[], []⟩))

/-! Supporting lemmas. -/

theorem conta_sacar_preserva (c : Conta) (v : ℚ) :
    (c.sacar v).2.historico = c.historico ∧ (c.sacar v).2.numero = c.numero := by
  unfold Conta.sacar
  split_ifs <;> exact ⟨rfl, rfl⟩

theorem conta_depositar_preserva (c : Conta) (v : ℚ) :
    (c.depositar v).2.historico = c.historico ∧ (c.depositar v).2.numero = c.numero := by
  unfold Conta.depositar
  split_ifs <;> exact ⟨rfl, rfl⟩

theorem cc_sacar_preserva (cc : ContaCorrente) (v : ℚ) :
    (cc.sacar v).2.historico = cc.historico ∧ (cc.sacar v).2.numero = cc.numero ∧
    (cc.sacar v).2.limite = cc.limite ∧
    (cc.sacar v).2.limite_saques = cc.limite_saques := by
  simp only [ContaCorrente.sacar]
  split_ifs
  · exact ⟨rfl, rfl, rfl, rfl⟩
  · exact ⟨rfl, rfl, rfl, rfl⟩
  · exact ⟨(conta_sacar_preserva cc.toConta v).1, (conta_sacar_preserva cc.toConta v).2,
      rfl, rfl⟩

theorem cc_depositar_preserva (cc : ContaCorrente) (v : ℚ) :
    (cc.depositar v).2.historico = cc.historico ∧ (cc.depositar v).2.numero = cc.numero ∧
    (cc.depositar v).2.limite = cc.limite ∧
    (cc.depositar v).2.limite_saques = cc.limite_saques := by
  exact ⟨(conta_depositar_preserva cc.toConta v).1, (conta_depositar_preserva cc.toConta v).2,
    rfl, rfl⟩

/-! Claim theorems and witnesses. -/

/-- C1: `Conta.sacar` fails and leaves the balance unchanged when the amount is
`≤ 0` or exceeds the balance; otherwise it subtracts exactly the amount and
reports success. -/
theorem conta_sacar_spec (c : Conta) (valor : ℚ) :
    ((valor ≤ 0 ∨ valor > c.saldo) →
      (c.sacar valor).1 ≠ OpResult.sucesso ∧ (c.sacar valor).2 = c) ∧
    (0 < valor → valor ≤ c.saldo →
      (c.sacar valor).1 = OpResult.sucesso ∧
      (c.sacar valor).2 = { c with saldo := c.saldo - valor }) := by
  unfold Conta.sacar
  split_ifs with h1 h2
  · exact ⟨fun _ => ⟨by simp, rfl⟩, fun hp _ => absurd h1 (not_le.mpr hp)⟩
  · exact ⟨fun _ => ⟨by simp, rfl⟩, fun _ hle => absurd h2 (not_lt.mpr hle)⟩
  · refine ⟨fun hor => ?_, fun _ _ => ⟨rfl, rfl⟩⟩
    rcases hor with h | h
    · exact absurd h h1
    · exact absurd h h2

theorem conta_sacar_spec_witness :
    ((contaTeste.sacar 0).1 ≠ OpResult.sucesso ∧ (contaTeste.sacar 0).2 = contaTeste) ∧
    ((contaTeste.sacar 20).1 ≠ OpResult.sucesso ∧ (contaTeste.sacar 20).2 = contaTeste) ∧
    ((contaTeste.sacar 3).1 = OpResult.sucesso ∧
      (contaTeste.sacar 3).2 = { contaTeste with saldo := contaTeste.saldo - 3 }) :=
  ⟨(conta_sacar_spec contaTeste 0).1 (Or.inl (by decide)),
   (conta_sacar_spec contaTeste 20).1 (Or.inr (by decide)),
   (conta_sacar_spec contaTeste 3).2 (by decide) (by decide)⟩

/-- C2: `Conta.depositar` fails and leaves the balance unchanged when the
amount is `≤ 0`; otherwise it adds exactly the amount and reports success. -/
theorem conta_depositar_spec (c : Conta) (valor : ℚ) :
    (valor ≤ 0 →
      (c.depositar valor).1 ≠ OpResult.sucesso ∧ (c.depositar valor).2 = c) ∧
    (0 < valor →
      (c.depositar valor).1 = OpResult.sucesso ∧
      (c.depositar valor).2 = { c with saldo := c.saldo + valor }) := by
  unfold Conta.depositar
  split_ifs with h1
  · exact ⟨fun _ => ⟨by simp, rfl⟩, fun hp => absurd h1 (not_le.mpr hp)⟩
  · exact ⟨fun hle => absurd hle h1, fun _ => ⟨rfl, rfl⟩⟩

theorem conta_depositar_spec_witness :
    ((contaTeste.depositar (-5)).1 ≠ OpResult.sucesso ∧
      (contaTeste.depositar (-5)).2 = contaTeste) ∧
    ((contaTeste.depositar 5).1 = OpResult.sucesso ∧
      (contaTeste.depositar 5).2 = { contaTeste with saldo := contaTeste.saldo + 5 }) :=
  ⟨(conta_depositar_spec contaTeste (-5)).1 (by decide),
   (conta_depositar_spec contaTeste 5).2 (by decide)⟩

/-- C3: on any checking account, in any state, a withdrawal of an amount
strictly above the configured limit fails (with the limit message) and leaves
the account unchanged; the default limit installed by the factory is 500. -/
theorem cc_sacar_excede_limite (cc : ContaCorrente) (valor : ℚ)
    (cliente : String) (numero : Nat) (h : cc.limite < valor) :
    cc.sacar valor = (OpResult.excedeLimite, cc) ∧
    (ContaCorrente.nova_conta cliente numero).limite = 500 := by
  refine ⟨?_, rfl⟩
  simp only [ContaCorrente.sacar]
  split_ifs with h1
  · rfl
  · exact absurd h h1

theorem cc_sacar_excede_limite_witness :
    ccTeste.sacar 600 = (OpResult.excedeLimite, ccTeste) ∧
    (ContaCorrente.nova_conta "111" 1).limite = 500 :=
  cc_sacar_excede_limite ccTeste 600 "111" 1 (by decide)

/-- C10: a freshly constructed account — `Conta.__init__`, the `nova_conta`
classmethod on either class, or `ContaCorrente.__init__` with any limits —
starts with balance 0.0 and an empty history. -/
theorem conta_nova_estado_inicial (cliente : String) (numero : Nat)
    (limite : ℚ) (maxSaques : Nat) :
    (Conta.init numero cliente).saldo = 0 ∧
    (Conta.init numero cliente).historico.transacoes = [] ∧
    (Conta.nova_conta cliente numero).saldo = 0 ∧
    (Conta.nova_conta cliente numero).historico.transacoes = [] ∧
    (ContaCorrente.init numero cliente limite maxSaques).saldo = 0 ∧
    (ContaCorrente.init numero cliente limite maxSaques).historico.transacoes = [] ∧
    (ContaCorrente.nova_conta cliente numero).saldo = 0 ∧
    (ContaCorrente.nova_conta cliente numero).historico.transacoes = [] :=
  ⟨rfl, rfl, rfl, rfl, rfl, rfl, rfl, rfl⟩

/-- C4 counterexample: on an account that already has three recorded
withdrawals (`limite_saques = 3`), the claim predicts that a withdrawal of any
amount fails with the max-withdrawals condition; but withdrawing 600 (above
the 500 limit) is rejected by the limit check, which `ContaCorrente.sacar`
tests first. -/
theorem cc_quarto_saque_counterexample :
    ccTresSaques.limite_saques ≤ saquesRealizados ccTresSaques ∧
    (ccTresSaques.sacar 600).1 = OpResult.excedeLimite ∧
    (ccTresSaques.sacar 600).1 ≠ OpResult.maxSaques :=
  ⟨by decide, by decide, by decide⟩

/-- C4 (amended): once the history holds at least `limite_saques` withdrawal
records, every further withdrawal attempt fails and leaves the account
unchanged, regardless of amount; the failure is reported with the
max-withdrawals condition whenever the amount does not exceed the
per-withdrawal limit (larger amounts are rejected by the limit check first). -/
theorem cc_sacar_max_saques (cc : ContaCorrente) (valor : ℚ)
    (h : cc.limite_saques ≤ saquesRealizados cc) :
    (cc.sacar valor).1 ≠ OpResult.sucesso ∧ (cc.sacar valor).2 = cc ∧
    (valor ≤ cc.limite → (cc.sacar valor).1 = OpResult.maxSaques) := by
  simp only [ContaCorrente.sacar]
  split_ifs with h1
  · exact ⟨by simp, rfl, fun hle => absurd h1 (not_lt.mpr hle)⟩
  · exact ⟨by simp, rfl, fun _ => rfl⟩

theorem cc_sacar_max_saques_witness :
    (ccTresSaques.sacar 100).1 ≠ OpResult.sucesso ∧
    (ccTresSaques.sacar 100).2 = ccTresSaques ∧
    (ccTresSaques.sacar 100).1 = OpResult.maxSaques :=
  ⟨(cc_sacar_max_saques ccTresSaques 100 (by decide)).1,
   (cc_sacar_max_saques ccTresSaques 100 (by decide)).2.1,
   (cc_sacar_max_saques ccTresSaques 100 (by decide)).2.2 (by decide)⟩

/-- C5: `registrar` appends exactly one record carrying the transaction's
amount and kind when the underlying account operation succeeds, and leaves
the history untouched when it fails — both at a `Conta` receiver and at a
`ContaCorrente` receiver. -/
theorem transacao_registrar_spec (t : Transacao) (c : Conta)
    (cc : ContaCorrente) (now : String) :
    (((t.aplicar c).1 = OpResult.sucesso →
        (t.registrar c now).historico.transacoes
          = c.historico.transacoes ++ [⟨t.tipo, t.valor, now⟩]) ∧
      ((t.aplicar c).1 ≠ OpResult.sucesso →
        (t.registrar c now).historico = c.historico)) ∧
    (((t.aplicarCC cc).1 = OpResult.sucesso →
        (t.registrarCC cc now).historico.transacoes
          = cc.historico.transacoes ++ [⟨t.tipo, t.valor, now⟩]) ∧
      ((t.aplicarCC cc).1 ≠ OpResult.sucesso →
        (t.registrarCC cc now).historico = cc.historico)) := by
  have hc : (t.aplicar c).2.historico = c.historico := by
    cases t with
    | saque v => exact (conta_sacar_preserva c v).1
    | deposito v => exact (conta_depositar_preserva c v).1
  have hcc : (t.aplicarCC cc).2.historico = cc.historico := by
    cases t with
    | saque v => exact (cc_sacar_preserva cc v).1
    | deposito v => exact (cc_depositar_preserva cc v).1
  refine ⟨⟨fun hs => ?_, fun hs => ?_⟩, ⟨fun hs => ?_, fun hs => ?_⟩⟩
  · simp only [Transacao.registrar, if_pos hs, Historico.adicionar_transacao, hc]
  · simp only [Transacao.registrar, if_neg hs, hc]
  · simp only [Transacao.registrarCC, if_pos hs, Historico.adicionar_transacao, hcc]
  · simp only [Transacao.registrarCC, if_neg hs, hcc]

theorem transacao_registrar_spec_witness :
    ((Transacao.deposito 5).registrar contaTeste "t" ).historico.transacoes
      = contaTeste.historico.transacoes
        ++ [⟨(Transacao.deposito 5).tipo, (Transacao.deposito 5).valor, "t"⟩] ∧
    ((Transacao.saque 0).registrar contaTeste "t").historico
      = contaTeste.historico ∧
    ((Transacao.deposito 5).registrarCC ccTeste "t").historico.transacoes
      = ccTeste.historico.transacoes
        ++ [⟨(Transacao.deposito 5).tipo, (Transacao.deposito 5).valor, "t"⟩] ∧
    ((Transacao.saque 0).registrarCC ccTeste "t").historico
      = ccTeste.historico :=
  ⟨(transacao_registrar_spec (Transacao.deposito 5) contaTeste ccTeste "t").1.1 (by decide),
   (transacao_registrar_spec (Transacao.saque 0) contaTeste ccTeste "t").1.2 (by decide),
   (transacao_registrar_spec (Transacao.deposito 5) contaTeste ccTeste "t").2.1 (by decide),
   (transacao_registrar_spec (Transacao.saque 0) contaTeste ccTeste "t").2.2 (by decide)⟩

/-- C6: the balance starts at 0 and every mutation operation — `depositar`
and `sacar`, on a plain `Conta` as well as on a `ContaCorrente` — preserves
non-negativity of the balance, so every reachable account state has a
non-negative balance. -/
theorem saldo_nao_negativo :
    (∀ (numero : Nat) (cliente : String), (Conta.init numero cliente).saldo = 0) ∧
    (∀ (cliente : String) (numero : Nat),
      (ContaCorrente.nova_conta cliente numero).saldo = 0) ∧
    (∀ (c : Conta) (v : ℚ), 0 ≤ c.saldo → 0 ≤ (c.depositar v).2.saldo) ∧
    (∀ (c : Conta) (v : ℚ), 0 ≤ c.saldo → 0 ≤ (c.sacar v).2.saldo) ∧
    (∀ (cc : ContaCorrente) (v : ℚ), 0 ≤ cc.saldo → 0 ≤ (cc.depositar v).2.saldo) ∧
    (∀ (cc : ContaCorrente) (v : ℚ), 0 ≤ cc.saldo → 0 ≤ (cc.sacar v).2.saldo) := by
  have hdep : ∀ (c : Conta) (v : ℚ), 0 ≤ c.saldo → 0 ≤ (c.depositar v).2.saldo := by
    intro c v h
    unfold Conta.depositar
    split_ifs with h1
    · exact h
    · push_neg at h1
      simpa using add_nonneg h (le_of_lt h1)
  have hsac : ∀ (c : Conta) (v : ℚ), 0 ≤ c.saldo → 0 ≤ (c.sacar v).2.saldo := by
    intro c v h
    unfold Conta.sacar
    split_ifs with h1 h2
    · exact h
    · exact h
    · push_neg at h2
      simpa using sub_nonneg.mpr h2
  refine ⟨fun _ _ => rfl, fun _ _ => rfl, hdep, hsac, fun cc v h => hdep cc.toConta v h, ?_⟩
  intro cc v h
  simp only [ContaCorrente.sacar]
  split_ifs
  · exact h
  · exact h
  · exact hsac cc.toConta v h

theorem saldo_nao_negativo_witness :
    0 ≤ (contaTeste.depositar 5).2.saldo ∧
    0 ≤ (contaTeste.sacar 3).2.saldo ∧
    0 ≤ (ccTeste.depositar 5).2.saldo ∧
    0 ≤ (ccTeste.sacar 100).2.saldo :=
  ⟨saldo_nao_negativo.2.2.1 contaTeste 5 (by decide),
   saldo_nao_negativo.2.2.2.1 contaTeste 3 (by decide),
   saldo_nao_negativo.2.2.2.2.1 ccTeste 5 (by decide),
   saldo_nao_negativo.2.2.2.2.2 ccTeste 100 (by decide)⟩

/-- C7: registering a customer whose CPF is already present leaves the
customer list — and hence every customer in it — unchanged. -/
theorem criar_cliente_duplicado (cpf nome data_nascimento endereco : String)
    (clientes : List PessoaFisica) (h : (filtrar_cliente cpf clientes).isSome) :
    criar_cliente cpf nome data_nascimento endereco clientes = clientes := by
  unfold criar_cliente
  cases hf : filtrar_cliente cpf clientes with
  | none => rw [hf] at h; simp at h
  | some cliente => rfl

theorem criar_cliente_duplicado_witness :
    criar_cliente "111" "Outro Nome" "02-02-1990" "Rua B, 2" [clienteTeste]
      = [clienteTeste] :=
  criar_cliente_duplicado "111" "Outro Nome" "02-02-1990" "Rua B, 2"
    [clienteTeste] (by decide)

/-! Lemmas for the account-number invariant. -/

theorem length_atualizarPrimeiro (p : α → Bool) (f : α → α) (l : List α) :
    (atualizarPrimeiro p f l).length = l.length := by
  induction l with
  | nil => rfl
  | cons x xs ih =>
    unfold atualizarPrimeiro
    split_ifs <;> simp [ih]

theorem map_atualizarPrimeiro {β : Type} (p : α → Bool) (f : α → α) (g : α → β)
    (hf : ∀ a, g (f a) = g a) (l : List α) :
    (atualizarPrimeiro p f l).map g = l.map g := by
  induction l with
  | nil => rfl
  | cons x xs ih =>
    unfold atualizarPrimeiro
    split_ifs <;> simp [hf, ih]

theorem registrarCC_preserva (t : Transacao) (cc : ContaCorrente) (now : String) :
    (t.registrarCC cc now).numero = cc.numero ∧
    (t.registrarCC cc now).limite = cc.limite ∧
    (t.registrarCC cc now).limite_saques = cc.limite_saques := by
  have h2 : (t.aplicarCC cc).2.numero = cc.numero ∧
      (t.aplicarCC cc).2.limite = cc.limite ∧
      (t.aplicarCC cc).2.limite_saques = cc.limite_saques := by
    cases t with
    | saque v =>
      exact ⟨(cc_sacar_preserva cc v).2.1, (cc_sacar_preserva cc v).2.2.1,
        (cc_sacar_preserva cc v).2.2.2⟩
    | deposito v =>
      exact ⟨(cc_depositar_preserva cc v).2.1, (cc_depositar_preserva cc v).2.2.1,
        (cc_depositar_preserva cc v).2.2.2⟩
  simp only [Transacao.registrarCC]
  split_ifs with hs
  · simpa using h2
  · exact h2

theorem realizar_transacao_op_numeros (t : Transacao) (cpf now : String)
    (s : Session) :
    (realizar_transacao_op t cpf now s).contas.map (fun cc => cc.numero)
      = s.contas.map (fun cc => cc.numero) ∧
    (realizar_transacao_op t cpf now s).contas.length = s.contas.length := by
  unfold realizar_transacao_op
  split
  · exact ⟨rfl, rfl⟩
  · split
    · exact ⟨rfl, rfl⟩
    · exact ⟨map_atualizarPrimeiro _ _ _ (fun cc => (registrarCC_preserva t cc now).1) _,
        length_atualizarPrimeiro _ _ _⟩

theorem reach_numeros {s : Session} (h : Reach s) :
    s.contas.map (fun cc => cc.numero) = List.range' 1 s.contas.length := by
  induction h with
  | init => rfl
  | depositar cpf valor now hr ih =>
    rw [depositar_op, (realizar_transacao_op_numeros _ _ _ _).1,
      (realizar_transacao_op_numeros _ _ _ _).2]
    exact ih
  | sacar cpf valor now hr ih =>
    rw [sacar_op, (realizar_transacao_op_numeros _ _ _ _).1,
      (realizar_transacao_op_numeros _ _ _ _).2]
    exact ih
  | novo_cliente cpf nome data_nascimento endereco hr ih => exact ih
  | nova_conta cpf hr ih =>
    rename_i s0
    simp only [criar_conta_op, criar_conta]
    cases filtrar_cliente cpf s0.clientes with
    | none => exact ih
    | some cliente =>
      simp only [List.map_append, List.length_append, List.map_cons, List.map_nil,
        List.length_cons, List.length_nil]
      rw [ih, List.range'_concat]
      simp [ContaCorrente.nova_conta, ContaCorrente.init, Conta.init, Nat.add_comm]

/-- C8: in every reachable session state the account numbers are exactly
`1, 2, …, n` in creation order — each successful creation receives
`contas.length + 1` — so no two accounts ever share a number. -/
theorem numeros_conta_unicos (s : Session) (h : Reach s) :
    s.contas.map (fun cc => cc.numero) = List.range' 1 s.contas.length ∧
    (s.contas.map (fun cc => cc.numero)).Nodup := by
  have hm := reach_numeros h
  refine ⟨hm, ?_⟩
  rw [hm]
  exact List.nodup_range' _ _ _ Nat.one_pos

theorem numeros_conta_unicos_witness :
    sessaoTeste.contas.map (fun cc => cc.numero)
      = List.range' 1 sessaoTeste.contas.length ∧
    (sessaoTeste.contas.map (fun cc => cc.numero)).Nodup :=
  numeros_conta_unicos sessaoTeste
    (Reach.nova_conta "111" (Reach.nova_conta "111"
      (Reach.novo_cliente "111" "Fulano de Tal" "01-01-2000"
        "Rua A, 1 - Centro - Cidade/UF" Reach.init)))

/-! Lemmas for claim C9. -/

theorem registrarCC_deposito_inv (v : ℚ) (cc : ContaCorrente) (now : String) :
    saquesRealizados ((Transacao.deposito v).registrarCC cc now) = saquesRealizados cc ∧
    ((Transacao.deposito v).registrarCC cc now).limite_saques = cc.limite_saques := by
  refine ⟨?_, (registrarCC_preserva _ cc now).2.2⟩
  have hh : ((Transacao.deposito v).aplicarCC cc).2.historico = cc.historico :=
    (cc_depositar_preserva cc v).1
  simp only [Transacao.registrarCC]
  split_ifs with hs
  · simp [saquesRealizados, Historico.adicionar_transacao, hh, List.countP_append,
      Transacao.tipo]
  · simp [saquesRealizados, hh]

theorem aplicarDepositos_inv (ds : List (ℚ × String)) (cc : ContaCorrente) :
    saquesRealizados (aplicarDepositos cc ds) = saquesRealizados cc ∧
    (aplicarDepositos cc ds).limite_saques = cc.limite_saques := by
  induction ds generalizing cc with
  | nil => exact ⟨rfl, rfl⟩
  | cons d resto ih =>
    obtain ⟨v, now⟩ := d
    simp only [aplicarDepositos]
    exact ⟨(ih _).1.trans (registrarCC_deposito_inv v cc now).1,
      (ih _).2.trans (registrarCC_deposito_inv v cc now).2⟩

/-- C9: `ContaCorrente` inherits `depositar` unchanged, so a positive deposit
succeeds on any checking account regardless of its history; and since the
withdrawal-count check counts only `Saque` records, no sequence of deposits
applied through `registrar` changes the count or makes a withdrawal fail with
the max-withdrawals condition. -/
theorem depositos_nao_restringem (cc : ContaCorrente) (v w : ℚ)
    (ds : List (ℚ × String)) (hv : 0 < v) :
    ((cc.depositar v).1 = OpResult.sucesso ∧
      (cc.depositar v).2.saldo = cc.saldo + v ∧
      (cc.depositar v).2.historico = cc.historico) ∧
    saquesRealizados (aplicarDepositos cc ds) = saquesRealizados cc ∧
    (saquesRealizados cc < cc.limite_saques →
      ((aplicarDepositos cc ds).sacar w).1 ≠ OpResult.maxSaques) := by
  refine ⟨?_, (aplicarDepositos_inv ds cc).1, fun hq => ?_⟩
  · unfold ContaCorrente.depositar Conta.depositar
    rw [if_neg (not_le.mpr hv)]
    exact ⟨rfl, rfl, rfl⟩
  · have hq2 : saquesRealizados (aplicarDepositos cc ds)
        < (aplicarDepositos cc ds).limite_saques := by
      rw [(aplicarDepositos_inv ds cc).1, (aplicarDepositos_inv ds cc).2]
      exact hq
    generalize aplicarDepositos cc ds = cc2 at hq2 ⊢
    simp only [ContaCorrente.sacar]
    split_ifs with h1 h2
    · simp
    · exact absurd h2 (not_le.mpr hq2)
    · unfold Conta.sacar
      split_ifs <;> simp

theorem depositos_nao_restringem_witness :
    ((ccTeste.depositar 5).1 = OpResult.sucesso ∧
      (ccTeste.depositar 5).2.saldo = ccTeste.saldo + 5 ∧
      (ccTeste.depositar 5).2.historico = ccTeste.historico) ∧
    saquesRealizados (aplicarDepositos ccTeste [(10, "a"), (20, "b")])
      = saquesRealizados ccTeste ∧
    ((aplicarDepositos ccTeste [(10, "a"), (20, "b")]).sacar 100).1
      ≠ OpResult.maxSaques ∧
    ((ccTresSaques.depositar 7).1 = OpResult.sucesso ∧
      (ccTresSaques.depositar 7).2.saldo = ccTresSaques.saldo + 7 ∧
      (ccTresSaques.depositar 7).2.historico = ccTresSaques.historico) ∧
    saquesRealizados (aplicarDepositos ccTresSaques [(10, "a")])
      = saquesRealizados ccTresSaques :=
  ⟨(depositos_nao_restringem ccTeste 5 100 [(10, "a"), (20, "b")] (by decide)).1,
   (depositos_nao_restringem ccTeste 5 100 [(10, "a"), (20, "b")] (by decide)).2.1,
   (depositos_nao_restringem ccTeste 5 100 [(10, "a"), (20, "b")] (by decide)).2.2
     (by decide),
   (depositos_nao_restringem ccTresSaques 7 1 [(10, "a")] (by decide)).1,
   (depositos_nao_restringem ccTresSaques 7 1 [(10, "a")] (by decide)).2.1⟩

end Banco
